import Mathlib

/-!
Shallow embedding of the knowledge-extraction, relevance-search and
response-routing subsystem of the devsecops-sme-chat repository.

The embedded code comes from:
* `src/server.js` — the `DevSecOpsKnowledgeBase` class
  (`extractDevSecOpsContent`, `searchKnowledgeBase`,
  `extractRelevantSnippets`) and the `/api/search` route;
* `src/ai-chat-server.js` — the `AIService` class (`getAvailableProvider`,
  `generateResponse`, `generateLocalResponse`, `analyzeIntent`,
  `extractContextInfo` and the response generators);
* the DevSecOps Documentation MCP server source (its `index.ts`, carried in
  the repository inside `src/CHATBOT_ALTERNATIVES.md`) —
  `searchDocumentation` and `extractSnippets`.

JavaScript strings are modelled as Lean `String`/`List Char`;
`toLowerCase` is modelled on the ASCII range (all inputs of interest are
ASCII); timestamps (`new Date().toISOString()`) are omitted, being pure
metadata that no claim mentions.
-/

namespace DevSecOpsChat

/-- `String.prototype.toLowerCase`, ASCII fragment: upper-case ASCII letters
map to lower case, every other character is unchanged. -/
def lowerChar (c : Char) : Char :=
  match c with
  | 'A' => 'a' | 'B' => 'b' | 'C' => 'c' | 'D' => 'd' | 'E' => 'e'
  | 'F' => 'f' | 'G' => 'g' | 'H' => 'h' | 'I' => 'i' | 'J' => 'j'
  | 'K' => 'k' | 'L' => 'l' | 'M' => 'm' | 'N' => 'n' | 'O' => 'o'
  | 'P' => 'p' | 'Q' => 'q' | 'R' => 'r' | 'S' => 's' | 'T' => 't'
  | 'U' => 'u' | 'V' => 'v' | 'W' => 'w' | 'X' => 'x' | 'Y' => 'y'
  | 'Z' => 'z'
  | _ => c

/-- Lower-casing of a character list. -/
def toLowerL (s : List Char) : List Char := s.map lowerChar

/-- Lower-casing of a string (`s.toLowerCase()`). -/
def toLowerStr (s : String) : String := String.mk (toLowerL s.data)

/-- Does `hay` start with `needle`? (character lists) -/
def startsWithL : List Char → List Char → Bool
  | [], _ => true
  | _ :: _, [] => false
  | a :: as, b :: bs => a == b && startsWithL as bs

/-- Does `hay` contain `needle` as a contiguous substring?
Models `hay.includes(needle)` on JavaScript strings. -/
def isSubstrOfL (needle : List Char) : List Char → Bool
  | [] => needle.isEmpty
  | c :: t => startsWithL needle (c :: t) || isSubstrOfL needle t

/-- `hay.includes(needle)` for Lean strings. -/
def containsSub (hay needle : String) : Bool := isSubstrOfL needle.data hay.data

/-- `hay.startsWith(needle)` for Lean strings. -/
def startsWithSub (hay needle : String) : Bool := startsWithL needle.data hay.data

/-- ASCII whitespace trimmed by `String.prototype.trim` (space, tab, newline,
carriage return, vertical tab, form feed; the non-ASCII whitespace JS also
trims does not occur in any input of interest). -/
def isWS (c : Char) : Bool :=
  c == ' ' || c == '\t' || c == '\n' || c == '\r' || c == '\x0b' || c == '\x0c'

/-- `String.prototype.trim` on character lists. -/
def trimL (s : List Char) : List Char :=
  ((s.dropWhile isWS).reverse.dropWhile isWS).reverse

/-- `String.prototype.trim` on strings. -/
def trimStr (s : String) : String := String.mk (trimL s.data)

/-- A sentence terminator of the snippet extractors: `.`, `!` or `?`. -/
def isSentenceEnd (c : Char) : Bool := c == '.' || c == '!' || c == '?'

/-- Scanner of `content.split(/[.!?]+/)`: `inRun` records whether the
previous character was a sentence terminator (a maximal run of terminators
makes a single cut), `acc` holds the current piece reversed. -/
def splitSentencesAux (inRun : Bool) (acc : List Char) : List Char → List (List Char)
  | [] => [acc.reverse]
  | c :: cs =>
    if isSentenceEnd c then
      if inRun then splitSentencesAux true [] cs
      else acc.reverse :: splitSentencesAux true [] cs
    else splitSentencesAux false (c :: acc) cs

/-- `content.split(/[.!?]+/)` with JS semantics: `""` gives `[""]`, `".a."`
gives `["", "a", ""]`, runs of terminators produce one cut. -/
def splitSentences (content : List Char) : List (List Char) :=
  splitSentencesAux false [] content

/-- Does the regex `pat` match at the head of `text`?  The fragment of
JavaScript regular expressions actually used: a pattern character `.`
matches any text character, every other pattern character matches itself. -/
def regexHeadMatch : List Char → List Char → Bool
  | [], _ => true
  | _ :: _, [] => false
  | p :: ps, c :: cs => (p == '.' || p == c) && regexHeadMatch ps cs

/-- Non-overlapping leftmost matches of a non-empty regex `pat` in `text`, as
counted by `text.match(new RegExp(pat, 'g')).length`: after a match the scan
resumes past its end (drop `pat.length - 1` beyond the head). `fuel` bounds
the recursion and is in surplus whenever `fuel ≥ text.length`. -/
def countMatchesFuel (pat : List Char) : Nat → List Char → Nat
  | _, [] => 0
  | 0, _ :: _ => 0
  | fuel + 1, c :: cs =>
    if regexHeadMatch pat (c :: cs) then
      1 + countMatchesFuel pat fuel (cs.drop (pat.length - 1))
    else countMatchesFuel pat fuel cs

/-- `text.match(new RegExp(pat, 'g'))` match count, including the JS
zero-width behaviour of the empty pattern (`text.length + 1` matches). -/
def jsGlobalMatchCount (pat text : List Char) : Nat :=
  if pat.isEmpty then text.length + 1 else countMatchesFuel pat text.length text

/-- Non-overlapping leftmost occurrences of `pat` in `text` as a literal
substring (same scan as `countMatchesFuel`, with literal matching). -/
def substrCountFuel (pat : List Char) : Nat → List Char → Nat
  | _, [] => 0
  | 0, _ :: _ => 0
  | fuel + 1, c :: cs =>
    if startsWithL pat (c :: cs) then
      1 + substrCountFuel pat fuel (cs.drop (pat.length - 1))
    else substrCountFuel pat fuel cs

/-- Literal substring count with the same empty-pattern convention as
`jsGlobalMatchCount` (used by the specification's reading of the scoring
rule). -/
def substrCount (pat text : List Char) : Nat :=
  if pat.isEmpty then text.length + 1 else substrCountFuel pat text.length text

/-! ## The `DevSecOpsKnowledgeBase` store (src/server.js) -/

/-- An entry of `this.pdfContents` (`processPDF` stores
`{filename, content, extractedAt}`). -/
structure PdfEntry where
  filename : String
  content : String
  extractedAt : String
deriving DecidableEq

/-- `this.knowledgeBase`: the per-category concept sets. -/
structure KnowledgeSets where
  cujs : List String
  slis : List String
  slos : List String
  bestPractices : List String
  riskAssessments : List String
deriving DecidableEq

/-- The in-memory state of a `DevSecOpsKnowledgeBase` instance (pdf map
modelled as an insertion-ordered association list, as `Map` iterates). -/
structure KBStore where
  pdfContents : List PdfEntry
  knowledgeBase : KnowledgeSets
deriving DecidableEq

/-- `extractRelevantSnippets(content, query)` from src/server.js (identical in
src/ai-chat-server.js): split into sentence-like units, keep the units whose
lower-cased text contains the lower-cased query, take the first `3`
(the `maxSnippets` default, never overridden at a call site), trim each. -/
def extractRelevantSnippets (content query : String) : List String :=
  let sentences := splitSentences content.data
  ((sentences.filter (fun s => isSubstrOfL (toLowerL query.data) (toLowerL s))).take 3).map
    (fun s => String.mk (trimL s))

/-- An element of `results.pdfMatches` in `searchKnowledgeBase`. -/
structure PdfMatch where
  filename : String
  extractedAt : String
  relevantSnippets : List String
deriving DecidableEq

/-- The `results` object of `searchKnowledgeBase`: a field is `none` when the
corresponding key was never set. -/
structure SearchResults where
  cujs : Option (List String)
  slis : Option (List String)
  slos : Option (List String)
  bestPractices : Option (List String)
  pdfMatches : Option (List PdfMatch)
deriving DecidableEq

/-- Length of an optional array, `0` when absent. -/
def optLen {α : Type} (o : Option (List α)) : Nat :=
  match o with
  | none => 0
  | some l => l.length

/-- `Object.values(results)` projected to the array lengths the `reduce`
consumes (every value set by `searchKnowledgeBase` is an array, so the
`Array.isArray` guard always holds). -/
def resultsValues (r : SearchResults) : List Nat :=
  ([r.cujs.map List.length, r.slis.map List.length, r.slos.map List.length,
    r.bestPractices.map List.length, r.pdfMatches.map List.length]).filterMap id

/-- The object returned by `searchKnowledgeBase` (the `searchedAt` timestamp
is omitted). -/
structure SearchResponse where
  query : String
  category : String
  results : SearchResults
  totalMatches : Nat
deriving DecidableEq

/-- `searchKnowledgeBase(query, category)` from src/server.js: a plain
substring filter per category (the ai-chat-server variant is identical except
that its last branch filters `contextFiles` under the key `context` instead
of `pdfContents` under `pdfs`). -/
def searchKnowledgeBase (store : KBStore) (query : String) (category : String) :
    SearchResponse :=
  let queryLower := toLowerStr query
  let results : SearchResults :=
    { cujs :=
        if category = "all" ∨ category = "cujs" then
          some (store.knowledgeBase.cujs.filter (fun cuj => containsSub (toLowerStr cuj) queryLower))
        else none,
      slis :=
        if category = "all" ∨ category = "slis" then
          some (store.knowledgeBase.slis.filter (fun sli => containsSub (toLowerStr sli) queryLower))
        else none,
      slos :=
        if category = "all" ∨ category = "slos" then
          some (store.knowledgeBase.slos.filter (fun slo => containsSub (toLowerStr slo) queryLower))
        else none,
      bestPractices :=
        if category = "all" ∨ category = "best-practices" then
          some (store.knowledgeBase.bestPractices.filter
            (fun practice => containsSub (toLowerStr practice) queryLower))
        else none,
      pdfMatches :=
        if category = "all" ∨ category = "pdfs" then
          some ((store.pdfContents.filter (fun entry =>
              containsSub (toLowerStr entry.filename) queryLower ||
              containsSub (toLowerStr entry.content) queryLower)).map
            (fun entry =>
              { filename := entry.filename,
                extractedAt := entry.extractedAt,
                relevantSnippets := extractRelevantSnippets entry.content query }))
        else none }
  { query := query,
    category := category,
    results := results,
    totalMatches := (resultsValues results).foldl (fun sum n => sum + n) 0 }

/-- The `/api/search` route handler of src/server.js: `req.body` may omit
`query` or `category`; a missing or empty (falsy) query is rejected with the
400 error `Query is required`, otherwise `searchKnowledgeBase` runs with the
category defaulting to `all` when absent. -/
def apiSearch (store : KBStore) (query : Option String) (category : Option String) :
    Except String SearchResponse :=
  match query with
  | none => Except.error "Query is required"
  | some q =>
    if q = "" then Except.error "Query is required"
    else Except.ok (searchKnowledgeBase store q (category.getD "all"))

/-! ## Concept extraction (`extractDevSecOpsContent`) -/

/-- The matched fragments that the three regular-expression patterns of each
concept category produce on one document text, in pattern order
(`content.match(pattern)` for each of the `cujPatterns`, `sliPatterns`,
`sloPatterns` and `bestPracticePatterns`, concatenated; a pattern that
matches nothing — `match` returning `null` — contributes the empty list).
The regex engine itself is pure, so the fragment lists are a function of the
document text alone; they are abstracted here as data. -/
structure ConceptMatches where
  cujs : List String
  slis : List String
  slos : List String
  bestPractices : List String

/-- The per-match body of `extractDevSecOpsContent`:
`if (!list.includes(match.trim())) list.push(match.trim())`. -/
def addConcept (l : List String) (m : String) : List String :=
  if l.contains (trimStr m) then l else l ++ [trimStr m]

/-- Folding `addConcept` over one category's matched fragments. -/
def addConcepts (l : List String) (ms : List String) : List String :=
  ms.foldl addConcept l

/-- `extractDevSecOpsContent(content)` from src/server.js (identical in
src/ai-chat-server.js), acting on the concept sets: each category's matches
are trimmed and appended when not already present; `riskAssessments` is
never written. -/
def extractDevSecOpsContent (cm : ConceptMatches) (kb : KnowledgeSets) : KnowledgeSets :=
  { cujs := addConcepts kb.cujs cm.cujs,
    slis := addConcepts kb.slis cm.slis,
    slos := addConcepts kb.slos cm.slos,
    bestPractices := addConcepts kb.bestPractices cm.bestPractices,
    riskAssessments := kb.riskAssessments }

/-! ## The MCP server's scored search (`searchDocumentation`) -/

/-- `DocContent` of the MCP server (its `type` and `lastModified` metadata
fields play no part in search and are omitted). -/
structure DocContent where
  title : String
  content : String
  category : String
deriving DecidableEq

/-- The fixed key-term vocabulary of `searchDocumentation`. -/
def keyTerms : List String :=
  ["cuj", "sli", "slo", "observability", "devsecops", "monitoring"]

/-- The relevance score of one document: `+10` when the lower-cased title
contains the lower-cased query, `+1` per match of
`contentLower.match(new RegExp(queryLower, 'g'))` — the query is compiled as
a regular expression, not escaped — and `+5` per key term contained in both
the query and the body. -/
def relevanceOf (queryLower : String) (doc : DocContent) : Nat :=
  let titleLower := toLowerStr doc.title
  let contentLower := toLowerStr doc.content
  let titleScore := if containsSub titleLower queryLower then 10 else 0
  let contentScore := jsGlobalMatchCount queryLower.data contentLower.data
  let keyScore := 5 * (keyTerms.filter
    (fun term => containsSub queryLower term && containsSub contentLower term)).length
  titleScore + contentScore + keyScore

/-- One element of the result list of `searchDocumentation`. -/
structure DocHit where
  id : String
  doc : DocContent
  relevance : Nat
deriving DecidableEq

/-- Insertion step of a stable descending sort by relevance: the element goes
in front of the first entry whose relevance is `≤` its own, so an earlier
element stays in front of later equal-relevance ones. -/
def insertByRelevance (x : DocHit) : List DocHit → List DocHit
  | [] => [x]
  | y :: ys =>
    if y.relevance ≤ x.relevance then x :: y :: ys else y :: insertByRelevance x ys

/-- `results.sort((a, b) => b.relevance - a.relevance)`: JavaScript's sort is
stable (ES2019), and a stable descending sort is unique, so it is modelled by
stable insertion sort. -/
def sortByRelevanceDesc (l : List DocHit) : List DocHit :=
  l.foldr insertByRelevance []

/-- The result list of `searchDocumentation` before sorting, in discovery
(cache-insertion) order: a document is skipped when a truthy `category`
argument differs from its category, scored, and pushed when its relevance is
positive. -/
def discoveryHits (docs : List (String × DocContent)) (queryLower : String)
    (category : Option String) : List DocHit :=
  docs.filterMap (fun entry =>
    if (match category with
        | none => true
        | some c => c = "" || entry.snd.category = c) then
      let r := relevanceOf queryLower entry.snd
      if r > 0 then some { id := entry.fst, doc := entry.snd, relevance := r } else none
    else none)

/-- `searchDocumentation(query, category)` from the MCP server: score every
cached document against the lower-cased query, drop zero scores, sort
descending by relevance (stable). -/
def searchDocumentation (docs : List (String × DocContent)) (query : String)
    (category : Option String) : List DocHit :=
  sortByRelevanceDesc (discoveryHits docs (toLowerStr query) category)

/-- Modelled from the spec wording of the scoring rule (§4.3 step 3): the
body term counts non-overlapping occurrences of the query as a *literal
substring* of the body, where the code compiles the query as a regular
expression. Everything else is as in `relevanceOf`. -/
def specRelevanceOf (queryLower : String) (doc : DocContent) : Nat :=
  let titleLower := toLowerStr doc.title
  let contentLower := toLowerStr doc.content
  let titleScore := if containsSub titleLower queryLower then 10 else 0
  let contentScore := substrCount queryLower.data contentLower.data
  let keyScore := 5 * (keyTerms.filter
    (fun term => containsSub queryLower term && containsSub contentLower term)).length
  titleScore + contentScore + keyScore

/-- Discovery-order hits under the spec's literal-substring scoring. -/
def specDiscoveryHits (docs : List (String × DocContent)) (queryLower : String)
    (category : Option String) : List DocHit :=
  docs.filterMap (fun entry =>
    if (match category with
        | none => true
        | some c => c = "" || entry.snd.category = c) then
      let r := specRelevanceOf queryLower entry.snd
      if r > 0 then some { id := entry.fst, doc := entry.snd, relevance := r } else none
    else none)

/-- The search operation as the spec's words describe it: literal-substring
scoring, zero scores excluded, stable descending sort. -/
def specSearchDocumentation (docs : List (String × DocContent)) (query : String)
    (category : Option String) : List DocHit :=
  sortByRelevanceDesc (specDiscoveryHits docs (toLowerStr query) category)

/-! ## The `AIService` (src/ai-chat-server.js) -/

/-- The `Intent` record returned by `analyzeIntent` (`secondary` is declared
and never written, staying `[]`). -/
structure Intent where
  primary : String
  secondary : List String
  questionType : String
  specificity : String
deriving DecidableEq

/-- `analyzeIntent(messageLower)`: three independent decision lists over the
already lower-cased message — primary topic, question type, specificity —
first matching keyword group wins, default `general`. -/
def analyzeIntent (messageLower : String) : Intent :=
  let m := messageLower
  let primary :=
    if containsSub m "cuj" || containsSub m "critical user journey" ||
        containsSub m "user journey" then "cuj"
    else if containsSub m "sli" || containsSub m "service level indicator" ||
        containsSub m "indicator" then "sli"
    else if containsSub m "slo" || containsSub m "service level objective" ||
        containsSub m "objective" then "slo"
    else if containsSub m "observability" || containsSub m "monitoring" ||
        containsSub m "metrics" then "observability"
    else if containsSub m "security" || containsSub m "devsecops" ||
        containsSub m "vulnerability" then "security"
    else if containsSub m "implement" || containsSub m "setup" ||
        containsSub m "configure" then "implementation"
    else if containsSub m "difference" || containsSub m "compare" ||
        containsSub m "vs" then "comparison"
    else if containsSub m "problem" || containsSub m "issue" ||
        containsSub m "troubleshoot" || containsSub m "debug" then "troubleshooting"
    else "general"
  let questionType :=
    if startsWithSub m "how" || containsSub m "how do" || containsSub m "how to" then "how"
    else if startsWithSub m "what" || containsSub m "what is" ||
        containsSub m "what are" then "what"
    else if startsWithSub m "why" || containsSub m "why should" then "why"
    else if startsWithSub m "when" || containsSub m "when to" then "when"
    else if containsSub m "best practice" || containsSub m "recommend" then "recommendation"
    else "general"
  let specificity :=
    if containsSub m "start" || containsSub m "begin" ||
        containsSub m "getting started" then "beginner"
    else if containsSub m "advanced" || containsSub m "complex" ||
        containsSub m "detailed" then "advanced"
    else if containsSub m "example" || containsSub m "sample" then "example"
    else "general"
  { primary := primary, secondary := [], questionType := questionType,
    specificity := specificity }

/-- The `context` object handed to `generateLocalResponse`: the live concept
sets and the loaded context files (only their count is ever read, via
`contextFiles.length`). -/
structure ChatContext where
  knowledgeBase : KnowledgeSets
  contextFiles : Nat

/-- The constant `cbaFramework` record built by `extractContextInfo`. -/
structure CbaFrameworkInfo where
  maturityLevels : List String
  tools : List String
  approach : String

/-- The `currentKnowledge` counts built by `extractContextInfo`. -/
structure CurrentKnowledge where
  cujs : Nat
  slis : Nat
  slos : Nat
  bestPractices : Nat

/-- The record returned by `extractContextInfo`. -/
structure ContextInfo where
  cbaFramework : CbaFrameworkInfo
  currentKnowledge : CurrentKnowledge
  contextFiles : Nat

/-- `extractContextInfo(contextFiles, knowledgeBase)`: a fixed CBA framework
description plus the current concept-set sizes (`x?.length || 0`). -/
def extractContextInfo (ctx : ChatContext) : ContextInfo :=
  { cbaFramework :=
      { maturityLevels :=
          ["No visibility", "Basic logging", "Structured monitoring",
           "Advanced observability"],
        tools := ["Observe (logging)", "Obstack (metrics)", "PagerDuty (alerting)"],
        approach := "metrics-driven observability" },
    currentKnowledge :=
      { cujs := ctx.knowledgeBase.cujs.length,
        slis := ctx.knowledgeBase.slis.length,
        slos := ctx.knowledgeBase.slos.length,
        bestPractices := ctx.knowledgeBase.bestPractices.length },
    contextFiles := ctx.contextFiles }

/-- `responses[Math.floor(Math.random() * responses.length)]`: every run of
the source picks some index below `responses.length`, and every such index is
`rnd % responses.length` for some `rnd`, so the random draw is modelled by an
arbitrary `rnd : Nat`. -/
def pickResponse (rnd : Nat) (responses : List String) : String :=
  responses.getD (rnd % responses.length) ""

/-- `generateCUJResponse(context)`. -/
def generateCUJResponse (_context : ContextInfo) (rnd : Nat) : String :=
  pickResponse rnd
    ["Critical User Journeys (CUJs) are end-to-end workflows that represent how users interact with your system. They help identify what's most important to measure and monitor.",
     "When defining CUJs, start by identifying your customers (end users, other apps, other teams), then map the journey from entry to exit points, including all dependencies.",
     "A good CUJ should focus on business value delivery. For example, in payments: 'User initiates payment → Account validation → Payment processing → Confirmation delivered'.",
     "Based on the CBA framework, CUJs should drive your SLI/SLO strategy. Focus on the segments where your application operates independently for the most actionable metrics."]

/-- `generateSLIResponse(context)`. -/
def generateSLIResponse (_context : ContextInfo) (rnd : Nat) : String :=
  pickResponse rnd
    ["Service Level Indicators (SLIs) are specific metrics that reflect the health of your Critical User Journeys. They should be measurable and directly tied to user experience.",
     "Good SLIs focus on what matters to users: availability, latency, error rates, and throughput. For example: 'Payment success rate' or '95th percentile response time'.",
     "When choosing SLIs, ask: 'What would users notice if this went wrong?' This helps ensure your metrics align with actual user impact.",
     "SLIs should be based on your internal deliverables - things your application controls directly, not external dependencies."]

/-- `generateSLOResponse(context)`. -/
def generateSLOResponse (_context : ContextInfo) (rnd : Nat) : String :=
  pickResponse rnd
    ["Service Level Objectives (SLOs) are targets for your SLIs. They define what 'good enough' looks like and help balance reliability with feature velocity.",
     "Start with achievable SLO targets based on current performance, then iterate. A 99.9% availability SLO means you have about 43 minutes of downtime per month.",
     "SLOs should align with business requirements. Work with stakeholders to understand what level of service is actually needed - not everything needs 99.99% uptime.",
     "Error budgets from SLOs help make data-driven decisions about when to focus on reliability vs new features. When you're burning budget too fast, it's time to slow down and fix things."]

/-- `generateObservabilityResponse(context)`. -/
def generateObservabilityResponse (_context : ContextInfo) (rnd : Nat) : String :=
  pickResponse rnd
    ["The CBA framework emphasizes shifting from logs to metrics for proactive monitoring. Logs are great for diagnosis, but metrics provide real-time insights into application health.",
     "Observability maturity progresses through 4 levels: No visibility → Basic logging → Structured monitoring → Advanced observability with predictive capabilities.",
     "Focus on application-level observability, not just infrastructure. Ask: 'Is my application doing what it's supposed to do?' rather than just 'Are my servers running?'",
     "Good observability combines metrics (Obstack), logs (Observe), and alerts (PagerDuty) to give you a complete picture of system health and user experience."]

/-- `generateSecurityResponse(context)`. -/
def generateSecurityResponse (_context : ContextInfo) (rnd : Nat) : String :=
  pickResponse rnd
    ["DevSecOps is about shifting security left - integrating security practices early in the development lifecycle rather than as an afterthought.",
     "Key practices include: automated security scanning in CI/CD, threat modeling during design, secure coding practices, and runtime protection.",
     "Security SLIs might include: vulnerability remediation time, security scan coverage, failed authentication rates, or security incident response time.",
     "Remember: security isn't just about tools, it's about culture. Train developers, establish security champions, and make security everyone's responsibility."]

/-- `generateAdvancedCUJResponse(message, intent, contextInfo)`. -/
def generateAdvancedCUJResponse (_message : String) (intent : Intent)
    (contextInfo : ContextInfo) (rnd : Nat) : String :=
  let questionType := intent.questionType
  let specificity := intent.specificity
  let currentKnowledge := contextInfo.currentKnowledge
  if questionType = "how" ∧ specificity = "beginner" then
    "Great question! Let me walk you through getting started with Critical User Journeys (CUJs).

**Step 1: Identify Your Customers**
Based on the CBA framework, start by identifying three types of customers:
• End users (people using your application)
• Other applications (systems that depend on yours)
• Other teams (internal stakeholders)

**Step 2: Map the Journey**
For each customer type, map their journey from entry to exit:
• Entry point: How do they start interacting with your system?
• Exit point: What marks successful completion?
• Dependencies: What do you rely on? What relies on you?

**Step 3: Focus on Business Value**
Your CUJ should represent real business value delivery. For example:
\"Customer places order → Payment processed → Order confirmed → Delivery scheduled\"

**Current Status:** You have " ++ toString currentKnowledge.cujs ++
    " CUJs in your knowledge base. Would you like me to help you define a specific CUJ for your application?"
  else if questionType = "what" then
    "Critical User Journeys (CUJs) are the backbone of effective observability strategy.

**What they are:**
CUJs represent end-to-end workflows that deliver business value to your customers. They're not just technical processes - they're business-critical paths through your system.

**Why they matter:**
• They help you focus monitoring on what actually impacts users
• They drive your SLI/SLO strategy (you currently have " ++
    toString currentKnowledge.slis ++ " SLIs and " ++ toString currentKnowledge.slos ++
    " SLOs)
• They align technical metrics with business outcomes

**CBA Framework Approach:**
The CBA framework emphasizes that CUJs should focus on segments where your application operates independently. This gives you the most actionable metrics and clearest ownership.

**Example CUJ Structure:**
\"User initiates payment → Account validation → Payment processing → Confirmation delivered\"

Each segment can be measured independently, making it easier to identify and fix issues.

Would you like help defining CUJs for your specific application?"
  else generateCUJResponse contextInfo rnd

/-- `generateAdvancedSLIResponse(message, intent, contextInfo)`. -/
def generateAdvancedSLIResponse (_message : String) (intent : Intent)
    (contextInfo : ContextInfo) (rnd : Nat) : String :=
  let questionType := intent.questionType
  let specificity := intent.specificity
  let currentKnowledge := contextInfo.currentKnowledge
  if questionType = "how" ∧ specificity = "beginner" then
    "Let me guide you through creating effective Service Level Indicators (SLIs).

**Step 1: Start with Your CUJs**
Your SLIs should directly measure the health of your Critical User Journeys. You currently have " ++
    toString currentKnowledge.cujs ++ " CUJs defined.

**Step 2: Ask the Right Question**
For each CUJ segment, ask: \"What would users notice if this went wrong?\"
• Slow response? → Measure latency
• Failed requests? → Measure error rate
• Service unavailable? → Measure availability

**Step 3: Focus on Internal Deliverables**
Measure what YOU control, not external dependencies:
✅ Good: \"Payment processing success rate\"
❌ Avoid: \"Third-party gateway availability\"

**Step 4: Make Them Measurable**
• Use percentages for success rates (99.5% success)
• Use percentiles for latency (95th percentile < 200ms)
• Use counts for throughput (1000 requests/minute)

**Common SLI Categories:**
• **Availability**: Is the service responding?
• **Latency**: How fast is it responding?
• **Quality**: Are the responses correct?
• **Coverage**: What percentage of requests are handled?

Ready to define SLIs for a specific CUJ?"
  else if questionType = "what" then
    "Service Level Indicators (SLIs) are the quantitative measures that tell you how well your system is performing from a user perspective.

**Key Characteristics:**
• **User-focused**: They measure what users actually experience
• **Measurable**: Based on real data, not opinions
• **Actionable**: When they're bad, you know what to fix
• **Aligned with CUJs**: Each SLI should map to a Critical User Journey

**The CBA Approach:**
Focus on metrics that reflect application health, not just infrastructure health. Ask \"Is my application doing what it's supposed to do?\" rather than \"Are my servers running?\"

**Your Current State:**
You have " ++ toString currentKnowledge.slis ++
    " SLIs defined. The CBA framework recommends starting with 3-5 key SLIs per major CUJ.

**Example SLIs:**
• **E-commerce**: Order completion rate, checkout latency, payment success rate
• **API Service**: Request success rate, response time, data accuracy
• **Web App**: Page load time, feature availability, user action success rate

**Tools Integration:**
• **Obstack**: Store and visualize your SLI metrics
• **Observe**: Detailed logs for SLI troubleshooting
• **PagerDuty**: Alert when SLIs breach thresholds

What type of application are you looking to create SLIs for?"
  else generateSLIResponse contextInfo rnd

/-- `generateAdvancedSLOResponse(message, intent, contextInfo)`. -/
def generateAdvancedSLOResponse (_message : String) (intent : Intent)
    (contextInfo : ContextInfo) (rnd : Nat) : String :=
  let questionType := intent.questionType
  let specificity := intent.specificity
  let currentKnowledge := contextInfo.currentKnowledge
  if questionType = "how" ∧ specificity = "beginner" then
    "Let me help you set up Service Level Objectives (SLOs) that actually work.

**Step 1: Start with Current Performance**
Don't guess - measure your current performance first:
• Look at your existing SLIs (you have " ++ toString currentKnowledge.slis ++
    " defined)
• Gather 2-4 weeks of baseline data
• Identify your current 95th percentile performance

**Step 2: Set Achievable Targets**
• Start slightly better than current performance
• Leave room for improvement without being unrealistic
• Example: If you're at 98.5% success rate, start with 99% SLO

**Step 3: Align with Business Needs**
• Talk to stakeholders about acceptable service levels
• Not everything needs 99.99% uptime
• Consider business impact vs. engineering cost

**Step 4: Define Error Budgets**
• 99.9% availability = 43 minutes downtime/month
• 99% availability = 7.2 hours downtime/month
• Use error budget to balance reliability vs. feature velocity

**Step 5: Iterate and Improve**
• Review SLOs monthly
• Adjust based on business changes
• Tighten targets as reliability improves

**CBA Framework Tip:**
Focus on SLOs that drive behavior change. If breaching an SLO doesn't change what your team does, it's not useful.

Ready to set your first SLO?"
  else if questionType = "what" then
    "Service Level Objectives (SLOs) are your reliability targets - they define what \"good enough\" looks like for your service.

**Why SLOs Matter:**
• **Decision Making**: They help you balance reliability vs. feature development
• **Error Budgets**: They give you a \"budget\" for failures and changes
• **Team Alignment**: Everyone knows what level of service to aim for
• **Customer Expectations**: They set realistic expectations with stakeholders

**Your Current State:**
You have " ++ toString currentKnowledge.slos ++
    " SLOs defined. The CBA framework recommends 1-2 SLOs per major SLI.

**SLO Structure:**
• **SLI**: What you're measuring (e.g., request success rate)
• **Target**: The threshold (e.g., 99.5%)
• **Time Window**: The period (e.g., 30 days)
• **Error Budget**: How much failure is acceptable (0.5% in 30 days)

**Example SLOs:**
• \"Payment processing will succeed 99.5% of the time over 30 days\"
• \"API response time will be under 200ms for 95% of requests over 7 days\"
• \"User login will be available 99.9% of the time over 30 days\"

**Error Budget Benefits:**
• When budget is healthy: Focus on features
• When budget is burning: Focus on reliability
• Data-driven decisions instead of gut feelings

**CBA Integration:**
• **Obstack**: Track SLO compliance and error budget burn
• **PagerDuty**: Alert when SLOs are at risk
• **Regular Reviews**: Monthly SLO review meetings

What's your biggest challenge with reliability right now?"
  else generateSLOResponse contextInfo rnd

/-- `generateAdvancedObservabilityResponse(message, intent, contextInfo)`. -/
def generateAdvancedObservabilityResponse (_message : String) (intent : Intent)
    (contextInfo : ContextInfo) (rnd : Nat) : String :=
  let questionType := intent.questionType
  let specificity := intent.specificity
  let cbaFramework := contextInfo.cbaFramework
  if questionType = "how" ∧ specificity = "beginner" then
    "Perfect! Let me guide you through starting with observability using the CBA framework.

**CBA Observability Maturity Levels:**
" ++ String.intercalate "\n"
      (cbaFramework.maturityLevels.enum.map (fun p => toString p.fst ++ ". " ++ p.snd)) ++ "

**Where to Start (Level 1):**
1. **Set up basic logging** to Observe
2. **Create your first dashboard** in Obstack
3. **Configure basic alerts** to PagerDuty
4. **Define one CUJ** to focus your efforts

**The CBA Shift: Logs → Metrics**
• **Logs**: Great for diagnosis (\"What went wrong?\")
• **Metrics**: Better for health monitoring (\"Is everything OK?\")
• **Focus**: Move from reactive to proactive monitoring

**Your First Week Plan:**
• **Day 1-2**: Define your most critical user journey
• **Day 3-4**: Identify 2-3 key metrics for that journey
• **Day 5-7**: Set up basic dashboards and alerts

**Key Questions to Answer:**
1. What's your current maturity level (0-3)?
2. What's your most business-critical user journey?
3. How do you currently find out when things break?

**CBA Tools Integration:**
• **Observe**: Centralized logging for troubleshooting
• **Obstack**: Metrics storage and SLO tracking
• **PagerDuty**: Smart alerting based on business impact

Ready to assess your current observability maturity?"
  else if questionType = "what" then
    "Observability is your ability to understand what's happening inside your systems by examining their outputs.

**The CBA Philosophy:**
\"Shift from logs to metrics for proactive monitoring. Focus on application health, not just infrastructure health.\"

**Three Pillars + Business Context:**
• **Metrics**: Real-time quantitative data (Obstack)
• **Logs**: Detailed diagnostic information (Observe)
• **Traces**: Request flow through systems
• **Business Context**: How technical health impacts users

**CBA Maturity Progression:**
" ++ String.intercalate "\n"
      (cbaFramework.maturityLevels.enum.map
        (fun p => "**Level " ++ toString p.fst ++ "**: " ++ p.snd)) ++ "

**Key Mindset Shifts:**
• From \"Are my servers running?\" to \"Is my application working?\"
• From reactive firefighting to proactive monitoring
• From infrastructure metrics to user experience metrics

**The CBA Approach:**
1. **Start with CUJs**: What matters to users?
2. **Define SLIs**: How do you measure CUJ health?
3. **Set SLOs**: What's acceptable performance?
4. **Build dashboards**: Visualize what matters
5. **Create alerts**: Know when to act

**Business Value:**
• **Predict issues** before customers notice
• **Reduce MTTR** with better diagnostics
• **Make data-driven decisions** about reliability vs. features
• **Improve customer experience** through better reliability

What's your biggest observability challenge right now?"
  else generateObservabilityResponse contextInfo rnd

/-- `generateAdvancedSecurityResponse(message, intent, contextInfo)`. -/
def generateAdvancedSecurityResponse (_message : String) (intent : Intent)
    (contextInfo : ContextInfo) (rnd : Nat) : String :=
  let questionType := intent.questionType
  let specificity := intent.specificity
  if questionType = "how" ∧ specificity = "beginner" then
    "Great question! Let me help you get started with DevSecOps using a practical approach.

**DevSecOps Foundation (Week 1-2):**
1. **Security Scanning in CI/CD**
   • Add SAST (Static Application Security Testing) to your pipeline
   • Implement dependency vulnerability scanning
   • Set up container image scanning

2. **Secure Development Practices**
   • Code review checklist with security items
   • Secure coding guidelines for your team
   • Input validation and output encoding standards

**Security SLIs to Track:**
• **Vulnerability Remediation Time**: How quickly you fix security issues
• **Security Scan Coverage**: Percentage of code/dependencies scanned
• **Failed Authentication Rate**: Unusual login patterns
• **Security Incident Response Time**: Time to detect and respond

**Cultural Integration:**
• **Security Champions**: Designate security advocates in each team
• **Training**: Regular security awareness sessions
• **Threat Modeling**: Include security in design discussions

**Tools Integration:**
• **CI/CD Pipeline**: Automated security testing
• **Monitoring**: Security-focused SLIs and alerts
• **Incident Response**: Security incident runbooks

**Quick Wins (This Week):**
1. Add a dependency scanner to your build
2. Create a security checklist for code reviews
3. Set up alerts for failed authentication spikes

**Remember**: Security isn't just about tools - it's about making security everyone's responsibility and part of your daily workflow.

What's your current development workflow like?"
  else generateSecurityResponse contextInfo rnd

/-- `generateImplementationResponse(message, intent, contextInfo)`. -/
def generateImplementationResponse (_message : String) (_intent : Intent)
    (_contextInfo : ContextInfo) : String :=
  "I'd be happy to help you implement this! Let me provide a practical approach.

**Implementation Strategy:**
1. **Start Small**: Pick one critical user journey to focus on
2. **Measure First**: Establish baseline metrics before setting targets
3. **Iterate Quickly**: Implement, measure, adjust, repeat
4. **Build Consensus**: Get team buy-in on what you're measuring and why

**Typical Implementation Timeline:**
• **Week 1**: Define CUJ and identify key metrics
• **Week 2**: Set up basic monitoring and dashboards
• **Week 3**: Define initial SLIs and SLOs
• **Week 4**: Implement alerting and review processes

**Common Implementation Challenges:**
• **Too many metrics**: Start with 3-5 key indicators
• **Perfect targets**: Start achievable, improve iteratively
• **Tool complexity**: Use what you have, add tools gradually
• **Team resistance**: Show value early with quick wins

**CBA Framework Support:**
The CBA observability team provides hands-on support for:
• CUJ definition workshops
• SLI/SLO implementation guidance
• Tool integration assistance
• Best practices consultation

What specific aspect would you like help implementing first?"

/-- `generateComparisonResponse(message, intent, contextInfo)`. -/
def generateComparisonResponse (message : String) (_intent : Intent)
    (contextInfo : ContextInfo) : String :=
  let messageLower := toLowerStr message
  if containsSub messageLower "sli" ∧ containsSub messageLower "slo" then
    "Great question! Here's the key difference between SLIs and SLOs:

**SLIs (Service Level Indicators):**
• **What**: The actual measurements
• **Example**: \"Request success rate is currently 99.2%\"
• **Purpose**: Tell you what's happening right now
• **Nature**: Objective, measurable data

**SLOs (Service Level Objectives):**
• **What**: The targets you're aiming for
• **Example**: \"Request success rate should be ≥99.5%\"
• **Purpose**: Define what \"good\" looks like
• **Nature**: Goals and expectations

**Simple Analogy:**
• **SLI**: Your car's speedometer reading (65 mph)
• **SLO**: The speed limit you're trying to follow (70 mph)

**In Practice:**
1. **SLI**: Measure payment success rate = 98.8%
2. **SLO**: Target payment success rate ≥99.0%
3. **Status**: Currently below target, need to investigate

**Your Current State:**
• SLIs defined: " ++ toString contextInfo.currentKnowledge.slis ++ "
• SLOs defined: " ++ toString contextInfo.currentKnowledge.slos ++ "

The CBA framework recommends 1-2 SLOs per key SLI to avoid alert fatigue."
  else if containsSub messageLower "observability" ∧ containsSub messageLower "monitoring" then
    "Excellent question! Here's how observability and monitoring differ:

**Traditional Monitoring:**
• **Reactive**: \"Something broke, now what?\"
• **Known unknowns**: Monitor what you expect to break
• **Infrastructure-focused**: CPU, memory, disk space
• **Alert-heavy**: Lots of alerts, many false positives

**Observability:**
• **Proactive**: \"How healthy is my system?\"
• **Unknown unknowns**: Discover issues you didn't expect
• **User-focused**: How is the user experience?
• **Context-rich**: Understand why things happen

**CBA Framework Perspective:**
• **Monitoring**: \"Are my servers running?\"
• **Observability**: \"Is my application doing what it's supposed to do?\"

**Practical Difference:**
• **Monitoring**: Alert when CPU > 80%
• **Observability**: Alert when user checkout success rate < 99%

**The Evolution:**
1. **Level 0**: No visibility
2. **Level 1**: Basic monitoring (infrastructure)
3. **Level 2**: Structured monitoring (application + infrastructure)
4. **Level 3**: Full observability (predictive, user-focused)

Which approach does your current setup lean toward?"
  else
    "I'd be happy to help compare those concepts! Could you be more specific about what you'd like me to compare? For example:
• SLIs vs SLOs
• Monitoring vs Observability
• Different observability tools
• Security approaches
• Implementation strategies"

/-- `generateTroubleshootingResponse(message, intent, contextInfo)`. -/
def generateTroubleshootingResponse (_message : String) (_intent : Intent)
    (_contextInfo : ContextInfo) : String :=
  "I'm here to help troubleshoot! Let me guide you through a systematic approach.

**Troubleshooting Framework:**
1. **Define the Problem**: What exactly is broken?
2. **Check Your SLIs**: Are your key metrics showing issues?
3. **Review Recent Changes**: What changed recently?
4. **Follow the CUJ**: Where in the user journey is it failing?

**Common Issues & Solutions:**

**\"My alerts are too noisy\"**
• Review SLO thresholds - are they too sensitive?
• Focus on user-impacting metrics, not infrastructure
• Use error budgets to reduce alert fatigue

**\"I don't know what to monitor\"**
• Start with your most critical user journey
• Ask: \"What would users notice if this broke?\"
• Begin with 3-5 key metrics, expand gradually

**\"My dashboards are overwhelming\"**
• Create role-based dashboards (dev, ops, business)
• Focus on trends, not just current values
• Use the CBA framework: metrics over logs

**\"SLOs keep getting breached\"**
• Check if targets are realistic based on current performance
• Review error budget burn rate
• Consider if you need to improve reliability vs. adjust targets

**CBA Troubleshooting Tools:**
• **Observe**: Detailed logs for root cause analysis
• **Obstack**: Metrics correlation and trending
• **PagerDuty**: Alert correlation and escalation

What specific issue are you facing right now?"

/-- `generateAdvancedGeneralResponse(message, intent, contextInfo)`. -/
def generateAdvancedGeneralResponse (_message : String) (intent : Intent)
    (contextInfo : ContextInfo) : String :=
  let specificity := intent.specificity
  let currentKnowledge := contextInfo.currentKnowledge
  let contextFiles := contextInfo.contextFiles
  if specificity = "beginner" then
    "Welcome to DevSecOps observability! I'm here to help you get started.

**Your Current Setup:**
• Knowledge base entries: " ++
    toString (currentKnowledge.cujs + currentKnowledge.slis + currentKnowledge.slos +
      currentKnowledge.bestPractices) ++ "
• Context files loaded: " ++ toString contextFiles ++ "
• CBA framework: Integrated and ready

**Great Starting Points:**
1. **\"How do I start with observability?\"** - I'll walk you through the CBA maturity levels
2. **\"What's a CUJ?\"** - Learn about Critical User Journeys
3. **\"Help me define SLIs\"** - Create meaningful metrics
4. **\"How do I set SLOs?\"** - Set realistic reliability targets

**Popular Questions:**
• \"What's the difference between SLIs and SLOs?\"
• \"How do I implement monitoring for my application?\"
• \"What are DevSecOps best practices?\"
• \"How do I troubleshoot observability issues?\"

**CBA Framework Benefits:**
• Metrics-driven approach over log-heavy monitoring
• Focus on user experience, not just infrastructure
• 4-level maturity progression (0-3)
• Practical tools: Observe, Obstack, PagerDuty

What would you like to explore first?"
  else
    "I'm your DevSecOps SME assistant, specialized in observability, CUJs, SLIs, and SLOs using the CBA framework.

**I can help you with:**
• **Critical User Journeys**: Define and optimize user workflows
• **SLI/SLO Strategy**: Create meaningful metrics and targets
• **Observability Implementation**: Practical monitoring approaches
• **DevSecOps Practices**: Security integration in development
• **CBA Framework**: 4-level maturity progression

**Your Context:**
• " ++ toString currentKnowledge.cujs ++ " CUJs, " ++
    toString currentKnowledge.slis ++ " SLIs, " ++ toString currentKnowledge.slos ++
    " SLOs defined
• " ++ toString contextFiles ++ " context files loaded with your specific knowledge
• CBA observability framework fully integrated

**Ask me anything like:**
• \"How do I improve my observability maturity?\"
• \"What SLIs should I track for an e-commerce site?\"
• \"Help me troubleshoot my alerting strategy\"
• \"What's the best way to implement DevSecOps?\"

What specific challenge can I help you solve today?"

/-- `generateLocalResponse(message, context)`: classify the message, build
the context info, dispatch on the primary topic. -/
def generateLocalResponse (message : String) (ctx : ChatContext) (rnd : Nat) : String :=
  let messageLower := toLowerStr message
  let intent := analyzeIntent messageLower
  let contextInfo := extractContextInfo ctx
  match intent.primary with
  | "cuj" => generateAdvancedCUJResponse message intent contextInfo rnd
  | "sli" => generateAdvancedSLIResponse message intent contextInfo rnd
  | "slo" => generateAdvancedSLOResponse message intent contextInfo rnd
  | "observability" => generateAdvancedObservabilityResponse message intent contextInfo rnd
  | "security" => generateAdvancedSecurityResponse message intent contextInfo rnd
  | "implementation" => generateImplementationResponse message intent contextInfo
  | "comparison" => generateComparisonResponse message intent contextInfo
  | "troubleshooting" => generateTroubleshootingResponse message intent contextInfo
  | _ => generateAdvancedGeneralResponse message intent contextInfo

/-- An `AIService` instance: the three availability flags of
`this.providers` (endpoints and model names omitted) and the provider chosen
once by the constructor. -/
structure AIService where
  openaiAvailable : Bool
  anthropicAvailable : Bool
  localAvailable : Bool
  selectedProvider : String
deriving DecidableEq

/-- `getAvailableProvider()`: first available provider in the fixed priority
order openai, anthropic, local. -/
def getAvailableProvider (openaiAvailable anthropicAvailable : Bool) : String :=
  if openaiAvailable then "openai"
  else if anthropicAvailable then "anthropic"
  else "local"

/-- The `AIService` constructor: availability comes from the presence of the
`OPENAI_API_KEY` / `ANTHROPIC_API_KEY` credentials, `local` is always
available, and `this.selectedProvider` is assigned exactly here. -/
def mkAIService (openaiKey anthropicKey : Bool) : AIService :=
  { openaiAvailable := openaiKey,
    anthropicAvailable := anthropicKey,
    localAvailable := true,
    selectedProvider := getAvailableProvider openaiKey anthropicKey }

/-- `generateResponse(message, context)`: dispatch on the provider selected at
construction. `remote` is the outcome of the awaited remote call
(`callOpenAI` / `callAnthropic`); an error value means that call threw or
rejected for any reason, and the surrounding `try`/`catch` then returns
`generateLocalResponse` instead. The `local` (default) branch never consults
`remote`. -/
def generateResponse (service : AIService) (remote : Except String String)
    (message : String) (ctx : ChatContext) (rnd : Nat) : String :=
  match service.selectedProvider with
  | "openai" =>
    (match remote with
     | Except.ok text => text
     | Except.error _ => generateLocalResponse message ctx rnd)
  | "anthropic" =>
    (match remote with
     | Except.ok text => text
     | Except.error _ => generateLocalResponse message ctx rnd)
  | _ => generateLocalResponse message ctx rnd

/-- One full message handled by the service. The service value is returned
unchanged: after the constructor, no method of the source ever assigns to
`this.selectedProvider` or `this.providers`. -/
def respondOnce (service : AIService) (remote : Except String String)
    (message : String) (ctx : ChatContext) (rnd : Nat) : String × AIService :=
  (generateResponse service remote message ctx rnd, service)

/-! ## Shared sample data and helper lemmas -/

/-- Freshly initialised concept sets (every category empty). -/
def emptySets : KnowledgeSets :=
  { cujs := [], slis := [], slos := [], bestPractices := [], riskAssessments := [] }

/-- A store holding one extracted CUJ fragment mentioning security. -/
def secStore : KBStore :=
  { pdfContents := [],
    knowledgeBase :=
      { cujs := ["cuj: security login"], slis := [], slos := [],
        bestPractices := [], riskAssessments := [] } }

/-- Summing the present array lengths of a `results` object. -/
theorem resultsValues_foldl (r : SearchResults) :
    (resultsValues r).foldl (fun sum n => sum + n) 0 =
      optLen r.cujs + optLen r.slis + optLen r.slos + optLen r.bestPractices +
        optLen r.pdfMatches := by
  rcases r with ⟨c, s, o, b, p⟩
  rcases c <;> rcases s <;> rcases o <;> rcases b <;> rcases p <;>
    simp [resultsValues, optLen]

/-! ## C2: empty query rejected, non-empty query served -/

/-- C2: a missing or empty-string query makes the `/api/search` route fail
with the `Query is required` error and no result object, while every
non-empty query is answered by `searchKnowledgeBase` (category defaulting to
`all` when absent). -/
theorem apiSearch_rejects_empty_query (store : KBStore) (category : Option String)
    (query : String) (hq : query ≠ "") :
    apiSearch store none category = Except.error "Query is required" ∧
    apiSearch store (some "") category = Except.error "Query is required" ∧
    apiSearch store (some query) category =
      Except.ok (searchKnowledgeBase store query (category.getD "all")) := by
  refine ⟨rfl, rfl, ?_⟩
  simp [apiSearch, hq]

/-- Witness for C2 at the query `slo` against the empty store. -/
theorem apiSearch_rejects_empty_query_witness :
    ("slo" : String) ≠ "" ∧
    apiSearch { pdfContents := [], knowledgeBase := emptySets } (some "") none =
      Except.error "Query is required" ∧
    apiSearch { pdfContents := [], knowledgeBase := emptySets } (some "slo") none =
      Except.ok (searchKnowledgeBase { pdfContents := [], knowledgeBase := emptySets }
        "slo" "all") :=
  ⟨by decide,
   (apiSearch_rejects_empty_query { pdfContents := [], knowledgeBase := emptySets }
     none "slo" (by decide)).2.1,
   (apiSearch_rejects_empty_query { pdfContents := [], knowledgeBase := emptySets }
     none "slo" (by decide)).2.2⟩

/-! ## C3: an unknown category is *not* ignored -/

/-- C3 counterexample: with the store holding a CUJ fragment that matches the
query `security`, the unknown category `frameworks` produces an empty result
object with `totalMatches = 0`, while the unfiltered search (category `all`,
the default when no category is given) finds one match — so an unknown
category does not behave as if no filter were given. -/
theorem searchKnowledgeBase_unknown_category_not_ignored :
    (searchKnowledgeBase secStore "security" "frameworks").totalMatches = 0 ∧
    (searchKnowledgeBase secStore "security" "frameworks").results.cujs = none ∧
    (searchKnowledgeBase secStore "security" "all").totalMatches = 1 ∧
    (searchKnowledgeBase secStore "security" "all").results.cujs =
      some ["cuj: security login"] := by decide

/-- C3 (amended): a category argument that is not one of
`all`, `cujs`, `slis`, `slos`, `best-practices`, `pdfs` matches none of the
category branches of `searchKnowledgeBase`, so the result object has no
entries at all and `totalMatches` is `0` — a restricted (empty) result set,
not an ignored filter. -/
theorem searchKnowledgeBase_unknown_category_empty (store : KBStore) (query : String)
    (category : String)
    (h : category ∉ ["all", "cujs", "slis", "slos", "best-practices", "pdfs"]) :
    (searchKnowledgeBase store query category).results =
      { cujs := none, slis := none, slos := none, bestPractices := none,
        pdfMatches := none } ∧
    (searchKnowledgeBase store query category).totalMatches = 0 := by
  simp only [List.mem_cons, List.not_mem_nil, or_false, not_or] at h
  obtain ⟨h1, h2, h3, h4, h5, h6⟩ := h
  constructor <;>
    simp [searchKnowledgeBase, h1, h2, h3, h4, h5, h6, resultsValues, optLen]

/-- Witness for C3 at the unknown category `frameworks`. -/
theorem searchKnowledgeBase_unknown_category_empty_witness :
    "frameworks" ∉ ["all", "cujs", "slis", "slos", "best-practices", "pdfs"] ∧
    (searchKnowledgeBase secStore "security" "frameworks").totalMatches = 0 :=
  ⟨by decide,
   (searchKnowledgeBase_unknown_category_empty secStore "security" "frameworks"
     (by decide)).2⟩

/-! ## C10: totalMatches is the sum of the array lengths in results -/

/-- C10: for every store, query and category, the `totalMatches` field
returned by `searchKnowledgeBase` equals the sum of the lengths of the
array-valued entries present in its `results` field. -/
theorem searchKnowledgeBase_totalMatches_eq_sum (store : KBStore) (query category : String) :
    (searchKnowledgeBase store query category).totalMatches =
      optLen (searchKnowledgeBase store query category).results.cujs +
      optLen (searchKnowledgeBase store query category).results.slis +
      optLen (searchKnowledgeBase store query category).results.slos +
      optLen (searchKnowledgeBase store query category).results.bestPractices +
      optLen (searchKnowledgeBase store query category).results.pdfMatches := by
  unfold searchKnowledgeBase
  exact resultsValues_foldl _

/-! ## C8: provider selection is fixed at startup -/

/-- C8: the constructor selects the provider exactly once from credential
presence, in the fixed priority order openai, anthropic, local (the first
available wins; `local` is always available), and handling a message returns
the service state unchanged — no method reassigns the selection. -/
theorem provider_selection_fixed_priority (openaiKey anthropicKey : Bool) :
    (mkAIService openaiKey anthropicKey).selectedProvider =
      (if openaiKey then "openai" else if anthropicKey then "anthropic" else "local") ∧
    (mkAIService openaiKey anthropicKey).localAvailable = true ∧
    (mkAIService true anthropicKey).selectedProvider = "openai" ∧
    (mkAIService false true).selectedProvider = "anthropic" ∧
    (mkAIService false false).selectedProvider = "local" ∧
    (∀ (remote : Except String String) (message : String) (ctx : ChatContext) (rnd : Nat),
      (respondOnce (mkAIService openaiKey anthropicKey) remote message ctx rnd).2 =
        mkAIService openaiKey anthropicKey) :=
  ⟨rfl, rfl, rfl, rfl, rfl, fun _ _ _ _ => rfl⟩

/-! ## C4 and C9: the concept extractor -/

/-- Membership is preserved by one dedup-insert step. -/
theorem mem_addConcept (l : List String) (m x : String) (h : x ∈ l) : x ∈ addConcept l m := by
  unfold addConcept
  split
  · exact h
  · exact List.mem_append_left _ h

/-- After one dedup-insert step, the trimmed fragment is present. -/
theorem trim_mem_addConcept (l : List String) (m : String) : trimStr m ∈ addConcept l m := by
  unfold addConcept
  split
  · next h => exact List.elem_iff.mp h
  · exact List.mem_append_right _ (List.mem_singleton_self _)

/-- Membership is preserved by a whole category pass. -/
theorem mem_addConcepts (l ms : List String) (x : String) (h : x ∈ l) :
    x ∈ addConcepts l ms := by
  induction ms generalizing l with
  | nil => exact h
  | cons m ms ih => exact ih _ (mem_addConcept _ _ _ h)

/-- After a category pass, every trimmed fragment of the pass is present. -/
theorem trim_mem_addConcepts (l ms : List String) (m : String) (h : m ∈ ms) :
    trimStr m ∈ addConcepts l ms := by
  induction ms generalizing l with
  | nil => cases h
  | cons m0 ms ih =>
    rcases List.mem_cons.mp h with h | h
    · subst h
      show trimStr m ∈ addConcepts (addConcept l m) ms
      exact mem_addConcepts _ _ _ (trim_mem_addConcept _ _)
    · exact ih _ h

/-- A category pass whose trimmed fragments are all already present is the
identity. -/
theorem addConcepts_eq_self (l ms : List String) (h : ∀ m ∈ ms, trimStr m ∈ l) :
    addConcepts l ms = l := by
  induction ms with
  | nil => rfl
  | cons m ms ih =>
    have h1 : addConcept l m = l := by
      unfold addConcept
      rw [if_pos (List.elem_iff.mpr (h m (List.mem_cons_self _ _)))]
    show addConcepts (addConcept l m) ms = l
    rw [h1]
    exact ih (fun x hx => h x (List.mem_cons_of_mem _ hx))

/-- Running a category pass twice equals running it once. -/
theorem addConcepts_idem (l ms : List String) :
    addConcepts (addConcepts l ms) ms = addConcepts l ms :=
  addConcepts_eq_self _ _ (fun _ hm => trim_mem_addConcepts _ _ _ hm)

/-- One dedup-insert step preserves freedom from duplicates. -/
theorem nodup_addConcept (l : List String) (m : String) (h : l.Nodup) :
    (addConcept l m).Nodup := by
  unfold addConcept
  split
  · exact h
  · next hc =>
    rw [List.nodup_append]
    refine ⟨h, List.nodup_singleton _, ?_⟩
    intro x hx hx1
    rw [List.mem_singleton] at hx1
    subst hx1
    exact hc (List.elem_iff.mpr hx)

/-- A category pass preserves freedom from duplicates. -/
theorem nodup_addConcepts (l ms : List String) (h : l.Nodup) : (addConcepts l ms).Nodup := by
  induction ms generalizing l with
  | nil => exact h
  | cons m ms ih => exact ih _ (nodup_addConcept _ _ h)

/-- One dedup-insert step only appends (first-seen order kept). -/
theorem addConcept_append_only (l : List String) (m : String) :
    ∃ t, addConcept l m = l ++ t := by
  unfold addConcept
  split
  · exact ⟨[], (List.append_nil l).symm⟩
  · exact ⟨[trimStr m], rfl⟩

/-- A category pass only appends (first-seen order kept). -/
theorem addConcepts_append_only (l ms : List String) : ∃ t, addConcepts l ms = l ++ t := by
  induction ms generalizing l with
  | nil => exact ⟨[], (List.append_nil l).symm⟩
  | cons m ms ih =>
    obtain ⟨t1, ht1⟩ := addConcept_append_only l m
    obtain ⟨t2, ht2⟩ := ih (addConcept l m)
    refine ⟨t1 ++ t2, ?_⟩
    show addConcepts (addConcept l m) ms = l ++ (t1 ++ t2)
    rw [ht2, ht1, List.append_assoc]

/-- C4: concept extraction is idempotent — processing the same document text
a second time leaves every concept set exactly as after the first pass;
moreover a pass keeps each set duplicate-free and only appends to it, so each
distinct trimmed fragment occurs once and first-seen order is preserved. -/
theorem extractDevSecOpsContent_idempotent (cm : ConceptMatches) (kb : KnowledgeSets)
    (h1 : kb.cujs.Nodup) (h2 : kb.slis.Nodup) (h3 : kb.slos.Nodup)
    (h4 : kb.bestPractices.Nodup) :
    extractDevSecOpsContent cm (extractDevSecOpsContent cm kb) =
      extractDevSecOpsContent cm kb ∧
    (extractDevSecOpsContent cm kb).cujs.Nodup ∧
    (extractDevSecOpsContent cm kb).slis.Nodup ∧
    (extractDevSecOpsContent cm kb).slos.Nodup ∧
    (extractDevSecOpsContent cm kb).bestPractices.Nodup ∧
    (∃ t, (extractDevSecOpsContent cm kb).cujs = kb.cujs ++ t) ∧
    (∃ t, (extractDevSecOpsContent cm kb).slis = kb.slis ++ t) ∧
    (∃ t, (extractDevSecOpsContent cm kb).slos = kb.slos ++ t) ∧
    (∃ t, (extractDevSecOpsContent cm kb).bestPractices = kb.bestPractices ++ t) := by
  refine ⟨?_, nodup_addConcepts _ _ h1, nodup_addConcepts _ _ h2,
    nodup_addConcepts _ _ h3, nodup_addConcepts _ _ h4,
    addConcepts_append_only _ _, addConcepts_append_only _ _,
    addConcepts_append_only _ _, addConcepts_append_only _ _⟩
  unfold extractDevSecOpsContent
  simp only [addConcepts_idem]

/-- The matched fragments of a text containing one CUJ fragment. -/
def loginMatches : ConceptMatches :=
  { cujs := ["cuj: login "], slis := [], slos := [], bestPractices := [] }

/-- Witness for C4: a CUJ fragment extracted twice from identical text is
stored once. -/
theorem extractDevSecOpsContent_idempotent_witness :
    ([] : List String).Nodup ∧
    extractDevSecOpsContent loginMatches
        (extractDevSecOpsContent loginMatches emptySets) =
      extractDevSecOpsContent loginMatches emptySets :=
  ⟨by decide,
   (extractDevSecOpsContent_idempotent loginMatches emptySets
     (by decide) (by decide) (by decide) (by decide)).1⟩

/-- C9: extraction is a total function of the document text (it is a plain
fold of dedup-inserts, so it terminates on every input, the empty and
whitespace-only strings included), and a pattern that matches nothing — an
empty fragment list for its category — contributes no entries to that
category's concept set. -/
theorem extractDevSecOpsContent_no_match_no_entries (cm : ConceptMatches)
    (kb : KnowledgeSets) (hc : cm.cujs = []) :
    (extractDevSecOpsContent cm kb).cujs = kb.cujs ∧
    (∀ cm' : ConceptMatches, ∀ kb' : KnowledgeSets, cm'.slis = [] →
      (extractDevSecOpsContent cm' kb').slis = kb'.slis) ∧
    (∀ cm' : ConceptMatches, ∀ kb' : KnowledgeSets, cm'.slos = [] →
      (extractDevSecOpsContent cm' kb').slos = kb'.slos) ∧
    (∀ cm' : ConceptMatches, ∀ kb' : KnowledgeSets, cm'.bestPractices = [] →
      (extractDevSecOpsContent cm' kb').bestPractices = kb'.bestPractices) := by
  refine ⟨?_, ?_, ?_, ?_⟩
  · unfold extractDevSecOpsContent
    rw [hc]
    rfl
  · intro cm' kb' h
    unfold extractDevSecOpsContent
    rw [h]
    rfl
  · intro cm' kb' h
    unfold extractDevSecOpsContent
    rw [h]
    rfl
  · intro cm' kb' h
    unfold extractDevSecOpsContent
    rw [h]
    rfl

/-- The all-empty match set, as produced by the empty document text (every
pattern's `match` returns `null` on it). -/
def noMatches : ConceptMatches :=
  { cujs := [], slis := [], slos := [], bestPractices := [] }

/-- Witness for C9 on the all-empty match set. -/
theorem extractDevSecOpsContent_no_match_no_entries_witness :
    noMatches.cujs = [] ∧
    (extractDevSecOpsContent noMatches emptySets).cujs = emptySets.cujs :=
  ⟨rfl, (extractDevSecOpsContent_no_match_no_entries noMatches emptySets rfl).1⟩

/-! ## C5 and C7: local synthesis -/

/-- A concatenation with a non-empty left part is non-empty. -/
theorem append_left_ne_empty (s t : String) (h : s ≠ "") : s ++ t ≠ "" := by
  intro he
  apply h
  have hl := congrArg String.length he
  rw [String.length_append] at hl
  have h0 : s.length = 0 := by
    have : ("" : String).length = 0 := rfl
    omega
  cases s with
  | mk data =>
    cases data with
    | nil => rfl
    | cons c cs => simp [String.length] at h0

/-- A random pick from a list of non-empty responses is non-empty. -/
theorem pickResponse_ne_empty (rnd : Nat) (l : List String) (hne : l ≠ [])
    (h : ∀ s ∈ l, s ≠ "") : pickResponse rnd l ≠ "" := by
  have hlen : 0 < l.length := List.length_pos.mpr hne
  have hidx : rnd % l.length < l.length := Nat.mod_lt _ hlen
  unfold pickResponse
  rw [List.getD_eq_getElem l "" hidx]
  exact h _ (List.getElem_mem hidx)

/-- Every branch of the CUJ generator yields non-empty text. -/
theorem generateAdvancedCUJResponse_ne_empty (m : String) (intent : Intent)
    (info : ContextInfo) (rnd : Nat) : generateAdvancedCUJResponse m intent info rnd ≠ "" := by
  unfold generateAdvancedCUJResponse
  dsimp only
  split
  · exact append_left_ne_empty _ _ (append_left_ne_empty _ _ (by decide))
  · split
    · exact append_left_ne_empty _ _ (append_left_ne_empty _ _
        (append_left_ne_empty _ _ (append_left_ne_empty _ _ (by decide))))
    · exact pickResponse_ne_empty _ _ (by decide) (by decide)

/-- Every branch of the SLI generator yields non-empty text. -/
theorem generateAdvancedSLIResponse_ne_empty (m : String) (intent : Intent)
    (info : ContextInfo) (rnd : Nat) : generateAdvancedSLIResponse m intent info rnd ≠ "" := by
  unfold generateAdvancedSLIResponse
  dsimp only
  split
  · exact append_left_ne_empty _ _ (append_left_ne_empty _ _ (by decide))
  · split
    · exact append_left_ne_empty _ _ (append_left_ne_empty _ _ (by decide))
    · exact pickResponse_ne_empty _ _ (by decide) (by decide)

/-- Every branch of the SLO generator yields non-empty text. -/
theorem generateAdvancedSLOResponse_ne_empty (m : String) (intent : Intent)
    (info : ContextInfo) (rnd : Nat) : generateAdvancedSLOResponse m intent info rnd ≠ "" := by
  unfold generateAdvancedSLOResponse
  dsimp only
  split
  · exact append_left_ne_empty _ _ (append_left_ne_empty _ _ (by decide))
  · split
    · exact append_left_ne_empty _ _ (append_left_ne_empty _ _ (by decide))
    · exact pickResponse_ne_empty _ _ (by decide) (by decide)

/-- Every branch of the observability generator yields non-empty text. -/
theorem generateAdvancedObservabilityResponse_ne_empty (m : String) (intent : Intent)
    (info : ContextInfo) (rnd : Nat) :
    generateAdvancedObservabilityResponse m intent info rnd ≠ "" := by
  unfold generateAdvancedObservabilityResponse
  dsimp only
  split
  · exact append_left_ne_empty _ _ (append_left_ne_empty _ _ (by decide))
  · split
    · exact append_left_ne_empty _ _ (append_left_ne_empty _ _ (by decide))
    · exact pickResponse_ne_empty _ _ (by decide) (by decide)

/-- Every branch of the security generator yields non-empty text. -/
theorem generateAdvancedSecurityResponse_ne_empty (m : String) (intent : Intent)
    (info : ContextInfo) (rnd : Nat) :
    generateAdvancedSecurityResponse m intent info rnd ≠ "" := by
  unfold generateAdvancedSecurityResponse
  dsimp only
  split
  · decide
  · exact pickResponse_ne_empty _ _ (by decide) (by decide)

/-- The implementation generator yields non-empty text. -/
theorem generateImplementationResponse_ne_empty (m : String) (intent : Intent)
    (info : ContextInfo) : generateImplementationResponse m intent info ≠ "" := by
  unfold generateImplementationResponse
  decide

/-- Every branch of the comparison generator yields non-empty text. -/
theorem generateComparisonResponse_ne_empty (m : String) (intent : Intent)
    (info : ContextInfo) : generateComparisonResponse m intent info ≠ "" := by
  unfold generateComparisonResponse
  dsimp only
  split
  · exact append_left_ne_empty _ _ (append_left_ne_empty _ _
      (append_left_ne_empty _ _ (append_left_ne_empty _ _ (by decide))))
  · split
    · decide
    · decide

/-- The troubleshooting generator yields non-empty text. -/
theorem generateTroubleshootingResponse_ne_empty (m : String) (intent : Intent)
    (info : ContextInfo) : generateTroubleshootingResponse m intent info ≠ "" := by
  unfold generateTroubleshootingResponse
  decide

/-- Every branch of the general generator yields non-empty text. -/
theorem generateAdvancedGeneralResponse_ne_empty (m : String) (intent : Intent)
    (info : ContextInfo) : generateAdvancedGeneralResponse m intent info ≠ "" := by
  unfold generateAdvancedGeneralResponse
  dsimp only
  split
  · exact append_left_ne_empty _ _ (append_left_ne_empty _ _
      (append_left_ne_empty _ _ (append_left_ne_empty _ _ (by decide))))
  · exact append_left_ne_empty _ _ (append_left_ne_empty _ _
      (append_left_ne_empty _ _ (append_left_ne_empty _ _
        (append_left_ne_empty _ _ (append_left_ne_empty _ _
          (append_left_ne_empty _ _ (append_left_ne_empty _ _ (by decide))))))))

/-- Local synthesis always produces non-empty text, whatever the message,
context and random draw. -/
theorem generateLocalResponse_ne_empty (message : String) (ctx : ChatContext) (rnd : Nat) :
    generateLocalResponse message ctx rnd ≠ "" := by
  unfold generateLocalResponse
  dsimp only
  split
  · exact generateAdvancedCUJResponse_ne_empty _ _ _ _
  · exact generateAdvancedSLIResponse_ne_empty _ _ _ _
  · exact generateAdvancedSLOResponse_ne_empty _ _ _ _
  · exact generateAdvancedObservabilityResponse_ne_empty _ _ _ _
  · exact generateAdvancedSecurityResponse_ne_empty _ _ _ _
  · exact generateImplementationResponse_ne_empty _ _ _
  · exact generateComparisonResponse_ne_empty _ _ _
  · exact generateTroubleshootingResponse_ne_empty _ _ _
  · exact generateAdvancedGeneralResponse_ne_empty _ _ _

/-- C5: whenever the remote provider call errors — for any reason — the
response operation returns exactly the local synthesis result, which is
non-empty text; the provider error value is never propagated. -/
theorem generateResponse_provider_error_falls_back (service : AIService)
    (remote : Except String String) (message : String) (ctx : ChatContext) (rnd : Nat)
    (e : String) (herr : remote = Except.error e) :
    generateResponse service remote message ctx rnd =
      generateLocalResponse message ctx rnd ∧
    generateResponse service remote message ctx rnd ≠ "" := by
  subst herr
  have heq : generateResponse service (Except.error e) message ctx rnd =
      generateLocalResponse message ctx rnd := by
    unfold generateResponse
    split <;> rfl
  exact ⟨heq, heq ▸ generateLocalResponse_ne_empty message ctx rnd⟩

/-- Witness for C5: a provider stub that always errors still yields the local
non-empty answer. -/
theorem generateResponse_provider_error_falls_back_witness :
    (Except.error "network failure" : Except String String) =
      Except.error "network failure" ∧
    generateResponse (mkAIService true false) (Except.error "network failure")
        "Hello" { knowledgeBase := emptySets, contextFiles := 0 } 0 =
      generateLocalResponse "Hello" { knowledgeBase := emptySets, contextFiles := 0 } 0 ∧
    generateResponse (mkAIService true false) (Except.error "network failure")
        "Hello" { knowledgeBase := emptySets, contextFiles := 0 } 0 ≠ "" :=
  ⟨rfl,
   (generateResponse_provider_error_falls_back (mkAIService true false) _ "Hello"
     { knowledgeBase := emptySets, contextFiles := 0 } 0 "network failure" rfl).1,
   (generateResponse_provider_error_falls_back (mkAIService true false) _ "Hello"
     { knowledgeBase := emptySets, contextFiles := 0 } 0 "network failure" rfl).2⟩

set_option maxRecDepth 8000

/-- C7: with every concept set empty, the message `What is a CUJ?` classifies
to primary `cuj` and question type `what`, local synthesis takes the CUJ
template path, and the produced template text contains the literal count
`0` (the interpolated size of the empty concept sets). -/
theorem localResponse_cuj_what_empty_sets (rnd : Nat) :
    analyzeIntent (toLowerStr "What is a CUJ?") =
      { primary := "cuj", secondary := [], questionType := "what",
        specificity := "general" } ∧
    generateLocalResponse "What is a CUJ?"
        { knowledgeBase := emptySets, contextFiles := 0 } rnd =
      generateAdvancedCUJResponse "What is a CUJ?"
        (analyzeIntent (toLowerStr "What is a CUJ?"))
        (extractContextInfo { knowledgeBase := emptySets, contextFiles := 0 }) rnd ∧
    (extractContextInfo
      { knowledgeBase := emptySets, contextFiles := 0 }).currentKnowledge.cujs = 0 ∧
    containsSub
      (generateLocalResponse "What is a CUJ?"
        { knowledgeBase := emptySets, contextFiles := 0 } rnd) "0" = true := by
  refine ⟨by decide, rfl, rfl, ?_⟩
  rfl

/-! ## C1: the scored search -/

/-- Without the `.` wildcard in the pattern, regex head-matching is literal
head-matching. -/
theorem regexHeadMatch_eq_startsWithL (pat : List Char) (hp : '.' ∉ pat) :
    ∀ t, regexHeadMatch pat t = startsWithL pat t := by
  induction pat with
  | nil => intro t; cases t <;> rfl
  | cons p ps ih =>
    intro t
    cases t with
    | nil => rfl
    | cons c cs =>
      have hp1 : p ≠ '.' := fun h => hp (h ▸ List.mem_cons_self _ _)
      have hp2 : '.' ∉ ps := fun h => hp (List.mem_cons_of_mem _ h)
      have hpd : (p == '.') = false := by
        simp only [beq_eq_false_iff_ne, ne_eq]
        exact hp1
      simp only [regexHeadMatch, startsWithL, ih hp2, hpd, Bool.false_or]

/-- Without the `.` wildcard, the regex match count is the literal substring
count, fuel for fuel. -/
theorem countMatchesFuel_eq_substr (pat : List Char) (hp : '.' ∉ pat) :
    ∀ fuel text, countMatchesFuel pat fuel text = substrCountFuel pat fuel text := by
  intro fuel
  induction fuel with
  | zero => intro text; cases text <;> rfl
  | succ n ih =>
    intro text
    cases text with
    | nil => rfl
    | cons c cs =>
      simp only [countMatchesFuel, substrCountFuel,
        regexHeadMatch_eq_startsWithL pat hp]
      split <;> simp [ih]

/-- Without the `.` wildcard, `jsGlobalMatchCount` is `substrCount`. -/
theorem jsGlobalMatchCount_eq_substrCount (pat : List Char) (hp : '.' ∉ pat)
    (text : List Char) : jsGlobalMatchCount pat text = substrCount pat text := by
  unfold jsGlobalMatchCount substrCount
  split
  · rfl
  · exact countMatchesFuel_eq_substr pat hp _ _

/-- Without the `.` wildcard in the lower-cased query, the code's relevance
score coincides with the spec's literal-substring reading. -/
theorem relevanceOf_eq_spec (queryLower : String) (hp : '.' ∉ queryLower.data)
    (doc : DocContent) : relevanceOf queryLower doc = specRelevanceOf queryLower doc := by
  unfold relevanceOf specRelevanceOf
  dsimp only
  rw [jsGlobalMatchCount_eq_substrCount _ hp]

/-- The discovery-order hit lists agree on `.`-free lower-cased queries. -/
theorem discoveryHits_eq_spec (docs : List (String × DocContent)) (queryLower : String)
    (hp : '.' ∉ queryLower.data) (category : Option String) :
    discoveryHits docs queryLower category = specDiscoveryHits docs queryLower category := by
  unfold discoveryHits specDiscoveryHits
  simp only [relevanceOf_eq_spec queryLower hp]

/-- Anything in an insertion result is the inserted element or was there. -/
theorem mem_insertByRelevance (x z : DocHit) (l : List DocHit)
    (h : z ∈ insertByRelevance x l) : z = x ∨ z ∈ l := by
  induction l with
  | nil => simpa [insertByRelevance] using h
  | cons y ys ih =>
    unfold insertByRelevance at h
    split at h
    · rcases List.mem_cons.mp h with h | h
      · exact Or.inl h
      · exact Or.inr h
    · rcases List.mem_cons.mp h with h | h
      · exact Or.inr (h ▸ List.mem_cons_self _ _)
      · rcases ih h with h | h
        · exact Or.inl h
        · exact Or.inr (List.mem_cons_of_mem _ h)

/-- Insertion preserves the descending-by-relevance invariant. -/
theorem pairwise_insertByRelevance (x : DocHit) (l : List DocHit)
    (h : l.Pairwise (fun a b => b.relevance ≤ a.relevance)) :
    (insertByRelevance x l).Pairwise (fun a b => b.relevance ≤ a.relevance) := by
  induction l with
  | nil => simp [insertByRelevance]
  | cons y ys ih =>
    rcases List.pairwise_cons.mp h with ⟨hy, hys⟩
    unfold insertByRelevance
    split
    · next hle =>
      refine List.pairwise_cons.mpr ⟨?_, h⟩
      intro z hz
      rcases List.mem_cons.mp hz with rfl | hz
      · exact hle
      · exact le_trans (hy z hz) hle
    · next hgt =>
      refine List.pairwise_cons.mpr ⟨?_, ih hys⟩
      intro z hz
      rcases mem_insertByRelevance x z ys hz with rfl | hz
      · omega
      · exact hy z hz

/-- The stable sort is sorted descending by relevance. -/
theorem sortByRelevanceDesc_pairwise (l : List DocHit) :
    (sortByRelevanceDesc l).Pairwise (fun a b => b.relevance ≤ a.relevance) := by
  induction l with
  | nil => simp [sortByRelevanceDesc]
  | cons x xs ih => exact pairwise_insertByRelevance x _ ih

/-- Stability of one insertion: restricted to any fixed relevance value, the
insertion behaves like consing in front. -/
theorem filter_insertByRelevance (v : Nat) (x : DocHit) (l : List DocHit) :
    (insertByRelevance x l).filter (fun h => h.relevance == v) =
      (x :: l).filter (fun h => h.relevance == v) := by
  induction l with
  | nil => rfl
  | cons y ys ih =>
    unfold insertByRelevance
    split
    · rfl
    · next hgt =>
      have hlt : x.relevance < y.relevance := Nat.lt_of_not_le hgt
      by_cases hyv : y.relevance = v
      · have hxv : (x.relevance == v) = false := by
          simp only [beq_eq_false_iff_ne, ne_eq]
          omega
        have hyv' : (y.relevance == v) = true := by simp [hyv]
        simp [List.filter_cons, hyv', hxv, ih]
      · have hyv' : (y.relevance == v) = false := by simp [hyv]
        simp [List.filter_cons, hyv', ih]

/-- Stability of the sort: elements of equal relevance keep their discovery
order. -/
theorem filter_sortByRelevanceDesc (v : Nat) (l : List DocHit) :
    (sortByRelevanceDesc l).filter (fun h => h.relevance == v) =
      l.filter (fun h => h.relevance == v) := by
  induction l with
  | nil => rfl
  | cons x xs ih =>
    show (insertByRelevance x (sortByRelevanceDesc xs)).filter (fun h => h.relevance == v) =
      (x :: xs).filter (fun h => h.relevance == v)
    rw [filter_insertByRelevance]
    simp only [List.filter_cons, ih]

/-- Sorting neither adds nor invents hits. -/
theorem mem_sortByRelevanceDesc (l : List DocHit) (z : DocHit)
    (h : z ∈ sortByRelevanceDesc l) : z ∈ l := by
  induction l with
  | nil => simp [sortByRelevanceDesc] at h
  | cons x xs ih =>
    have h' : z ∈ insertByRelevance x (sortByRelevanceDesc xs) := h
    rcases mem_insertByRelevance x z _ h' with rfl | h'
    · exact List.mem_cons_self _ _
    · exact List.mem_cons_of_mem _ (ih h')

/-- Every discovered hit carries its document's relevance score and that
score is positive (zero-score documents are excluded). -/
theorem mem_discoveryHits (docs : List (String × DocContent)) (queryLower : String)
    (category : Option String) (h : DocHit)
    (hmem : h ∈ discoveryHits docs queryLower category) :
    h.relevance = relevanceOf queryLower h.doc ∧ 0 < h.relevance := by
  unfold discoveryHits at hmem
  rcases List.mem_filterMap.mp hmem with ⟨entry, _, hf⟩
  dsimp only at hf
  split at hf
  · split at hf
    · next hr =>
      rcases Option.some.inj hf with rfl
      exact ⟨rfl, hr⟩
    · cases hf
  · cases hf

/-- The characters that JavaScript regular expressions treat specially; the
modelled regex fragment (and hence faithfulness to the source) requires the
query to avoid them. -/
def regexMetaChars : List Char :=
  ['.', '*', '+', '?', '^', '$', '(', ')', '[', ']', '{', '}', '|', '\\']

/-- C1 counterexample: for the stored document titled `Guide` with body `ab`
and the query `.`, the claim's formula scores 0 (no title match, no literal
occurrence of `.` in the body, no key term), so the claim excludes the
document — but `searchDocumentation` compiles the query as the regular
expression `/./g`, counts 2 matches, and returns the document with
relevance 2. -/
theorem searchDocumentation_dot_query_counterexample :
    specRelevanceOf (toLowerStr ".") { title := "Guide", content := "ab", category := "docs" } = 0 ∧
    searchDocumentation
        [("doc1", { title := "Guide", content := "ab", category := "docs" })] "." none =
      [{ id := "doc1", doc := { title := "Guide", content := "ab", category := "docs" },
         relevance := 2 }] ∧
    specSearchDocumentation
        [("doc1", { title := "Guide", content := "ab", category := "docs" })] "." none =
      [] := by decide

/-- C1 (amended): for every document store, category filter and query whose
lower-cased text contains no regular-expression metacharacter (the body term
then counts non-overlapping literal occurrences of the query, exactly as the
spec words it), `searchDocumentation` returns precisely the spec's ranking:
the discovery-order list scored by +10 title / +1 per body occurrence /
+5 per shared key term, zero scores excluded, sorted descending by score with
ties in discovery order. The sortedness, positive-score and stability
conjuncts are stated of the code's output directly. -/
theorem searchDocumentation_matches_spec_for_literal_queries
    (docs : List (String × DocContent)) (query : String) (category : Option String)
    (hm : ∀ c ∈ (toLowerStr query).data, c ∉ regexMetaChars) :
    searchDocumentation docs query category = specSearchDocumentation docs query category ∧
    (searchDocumentation docs query category).Pairwise
      (fun a b => b.relevance ≤ a.relevance) ∧
    (∀ h ∈ searchDocumentation docs query category,
      h.relevance = relevanceOf (toLowerStr query) h.doc ∧ 0 < h.relevance) ∧
    (∀ v : Nat,
      (searchDocumentation docs query category).filter (fun h => h.relevance == v) =
        (discoveryHits docs (toLowerStr query) category).filter
          (fun h => h.relevance == v)) := by
  have hp : '.' ∉ (toLowerStr query).data := by
    intro hdot
    exact hm '.' hdot (List.mem_cons_self _ _)
  refine ⟨?_, sortByRelevanceDesc_pairwise _, ?_, ?_⟩
  · unfold searchDocumentation specSearchDocumentation
    rw [discoveryHits_eq_spec docs _ hp category]
  · intro h hmem
    exact mem_discoveryHits docs _ category h
      (mem_sortByRelevanceDesc _ _ hmem)
  · intro v
    exact filter_sortByRelevanceDesc v _

/-- Witness for C1 on the spec's own scenario: one document titled
`SLO Guide` and the metacharacter-free query `slo`. -/
theorem searchDocumentation_matches_spec_for_literal_queries_witness :
    (∀ c ∈ (toLowerStr "slo").data, c ∉ regexMetaChars) ∧
    searchDocumentation
        [("kb1", { title := "SLO Guide",
                   content := "Our service level objective is 99.9% availability.",
                   category := "knowledge" })] "slo" none =
      specSearchDocumentation
        [("kb1", { title := "SLO Guide",
                   content := "Our service level objective is 99.9% availability.",
                   category := "knowledge" })] "slo" none :=
  ⟨by decide,
   (searchDocumentation_matches_spec_for_literal_queries
     [("kb1", { title := "SLO Guide",
                content := "Our service level objective is 99.9% availability.",
                category := "knowledge" })] "slo" none (by decide)).1⟩

/-! ## C6: snippet extraction -/

/-- `startsWithL` characterised by list splitting. -/
theorem startsWithL_iff (needle hay : List Char) :
    startsWithL needle hay = true ↔ ∃ t, hay = needle ++ t := by
  induction needle generalizing hay with
  | nil =>
    simp only [startsWithL, List.nil_append]
    exact ⟨fun _ => ⟨hay, rfl⟩, fun _ => trivial⟩
  | cons a as ih =>
    cases hay with
    | nil =>
      simp only [startsWithL, List.cons_append]
      constructor
      · intro h; cases h
      · rintro ⟨t, ht⟩; cases ht
    | cons b bs =>
      simp only [startsWithL, Bool.and_eq_true, beq_iff_eq, ih, List.cons_append]
      constructor
      · rintro ⟨rfl, t, rfl⟩
        exact ⟨t, rfl⟩
      · rintro ⟨t, ht⟩
        injection ht with h1 h2
        exact ⟨h1.symm, t, h2⟩

/-- `isSubstrOfL` characterised by list splitting. -/
theorem isSubstrOfL_iff (needle hay : List Char) :
    isSubstrOfL needle hay = true ↔ ∃ u v, hay = u ++ needle ++ v := by
  induction hay with
  | nil =>
    simp only [isSubstrOfL, List.isEmpty_iff]
    constructor
    · intro h; exact ⟨[], [], by simp [h]⟩
    · rintro ⟨u, v, huv⟩
      rcases List.append_eq_nil.mp ((List.append_eq_nil.mp huv.symm).1) with ⟨_, h2⟩
      exact h2
  | cons c t ih =>
    simp only [isSubstrOfL, Bool.or_eq_true, startsWithL_iff, ih]
    constructor
    · rintro (⟨v, hv⟩ | ⟨u, v, huv⟩)
      · exact ⟨[], v, by simpa using hv⟩
      · exact ⟨c :: u, v, by simp [huv]⟩
    · rintro ⟨u, v, huv⟩
      cases u with
      | nil => exact Or.inl ⟨v, by simpa using huv⟩
      | cons u0 us =>
        right
        injection huv with h1 h2
        exact ⟨us, v, h2⟩

/-- Substring containment is stable under reversing both sides. -/
theorem substr_reverse_iff (needle hay : List Char) :
    isSubstrOfL needle.reverse hay.reverse = true ↔ isSubstrOfL needle hay = true := by
  rw [isSubstrOfL_iff, isSubstrOfL_iff]
  constructor
  · rintro ⟨u, v, huv⟩
    refine ⟨v.reverse, u.reverse, ?_⟩
    have h2 := congrArg List.reverse huv
    simpa [List.reverse_append, List.append_assoc] using h2
  · rintro ⟨u, v, huv⟩
    refine ⟨v.reverse, u.reverse, ?_⟩
    rw [huv]
    simp [List.reverse_append, List.append_assoc]

/-- A needle whose first character is not dropped survives `dropWhile` on the
haystack. -/
theorem substr_dropWhile (p : Char → Bool) (n0 : Char) (ns hay : List Char)
    (hn : p n0 = false) (h : isSubstrOfL (n0 :: ns) hay = true) :
    isSubstrOfL (n0 :: ns) (hay.dropWhile p) = true := by
  induction hay with
  | nil => simp [isSubstrOfL] at h
  | cons c t ih =>
    by_cases hc : p c
    · rw [List.dropWhile_cons_of_pos hc]
      apply ih
      simp only [isSubstrOfL, Bool.or_eq_true] at h
      rcases h with h1 | h2
      · exfalso
        simp only [startsWithL, Bool.and_eq_true, beq_iff_eq] at h1
        rw [h1.1] at hn
        rw [hn] at hc
        cases hc
      · exact h2
    · rw [List.dropWhile_cons_of_neg hc]
      exact h

/-- If `dropWhile` keeps the length it keeps the list. -/
theorem dropWhile_eq_self_of_length (p : Char → Bool) (l : List Char)
    (h : (l.dropWhile p).length = l.length) : l.dropWhile p = l := by
  cases l with
  | nil => rfl
  | cons c cs =>
    by_cases hc : p c
    · rw [List.dropWhile_cons_of_pos hc] at h ⊢
      have hle := (List.dropWhile_sublist (l := cs) p).length_le
      exfalso
      simp only [List.length_cons] at h
      omega
    · rw [List.dropWhile_cons_of_neg hc]

/-- A list fixed by `dropWhile` has an undropped head. -/
theorem head_not_of_dropWhile_eq (p : Char → Bool) (c : Char) (cs : List Char)
    (h : (c :: cs).dropWhile p = c :: cs) : p c = false := by
  by_cases hc : p c
  · rw [List.dropWhile_cons_of_pos hc] at h
    have := congrArg List.length h
    have hle := (List.dropWhile_sublist (l := cs) p).length_le
    simp only [List.length_cons] at this
    omega
  · simpa using hc

/-- A trim-fixed list is fixed by the whitespace `dropWhile` on both ends. -/
theorem trimL_fixed_heads (l : List Char) (h : trimL l = l) :
    l.dropWhile isWS = l ∧ l.reverse.dropWhile isWS = l.reverse := by
  have hlen : (((l.dropWhile isWS).reverse.dropWhile isWS).reverse).length = l.length :=
    congrArg List.length h
  have h1 : ((l.dropWhile isWS).reverse.dropWhile isWS).length ≤
      (l.dropWhile isWS).length := by
    have := (List.dropWhile_sublist (l := (l.dropWhile isWS).reverse) isWS).length_le
    simpa using this
  have h2 : (l.dropWhile isWS).length ≤ l.length :=
    (List.dropWhile_sublist (l := l) isWS).length_le
  simp only [List.length_reverse] at hlen
  have hdw : l.dropWhile isWS = l := dropWhile_eq_self_of_length _ _ (by omega)
  refine ⟨hdw, ?_⟩
  have heq : trimL l = ((l.reverse).dropWhile isWS).reverse := by rw [trimL, hdw]
  rw [heq] at h
  have := congrArg List.reverse h
  simpa using this

/-- A non-empty trim-fixed needle contained in the haystack is contained in
the trimmed haystack: only whitespace is trimmed, and the needle neither
starts nor ends with whitespace. -/
theorem substr_trimL (q hay : List Char) (hq : q ≠ []) (hfix : trimL q = q)
    (h : isSubstrOfL q hay = true) : isSubstrOfL q (trimL hay) = true := by
  obtain ⟨hdw, hdwr⟩ := trimL_fixed_heads q hfix
  obtain ⟨q0, qs, rfl⟩ : ∃ q0 qs, q = q0 :: qs := by
    cases q with
    | nil => exact absurd rfl hq
    | cons a b => exact ⟨a, b, rfl⟩
  have hq0 : isWS q0 = false := head_not_of_dropWhile_eq _ _ _ hdw
  have h1 : isSubstrOfL (q0 :: qs) (hay.dropWhile isWS) = true :=
    substr_dropWhile isWS q0 qs hay hq0 h
  have h2 : isSubstrOfL (q0 :: qs).reverse (hay.dropWhile isWS).reverse = true :=
    (substr_reverse_iff _ _).mpr h1
  obtain ⟨r0, rs, hr⟩ : ∃ r0 rs, (q0 :: qs).reverse = r0 :: rs := by
    cases hrev : (q0 :: qs).reverse with
    | nil =>
      exfalso
      have := congrArg List.length hrev
      simp at this
    | cons a b => exact ⟨a, b, rfl⟩
  rw [hr] at hdwr
  have hr0 : isWS r0 = false := head_not_of_dropWhile_eq _ _ _ hdwr
  have h3 : isSubstrOfL (r0 :: rs) ((hay.dropWhile isWS).reverse.dropWhile isWS) = true := by
    rw [hr] at h2
    exact substr_dropWhile isWS r0 rs _ hr0 h2
  apply (substr_reverse_iff (q0 :: qs) (trimL hay)).mp
  rw [hr]
  show isSubstrOfL (r0 :: rs) (trimL hay).reverse = true
  rw [trimL, List.reverse_reverse]
  exact h3

/-- ASCII lower-casing maps whitespace to whitespace and nothing else to
whitespace. -/
theorem isWS_lowerChar (c : Char) : isWS (lowerChar c) = isWS c := by
  unfold lowerChar
  split <;> rfl

/-- Lower-casing commutes with the whitespace `dropWhile`. -/
theorem map_lower_dropWhile (x : List Char) :
    List.map lowerChar (List.dropWhile isWS x) =
      List.dropWhile isWS (List.map lowerChar x) := by
  have hcomp : (isWS ∘ lowerChar) = isWS := funext isWS_lowerChar
  rw [List.dropWhile_map, hcomp]

/-- Lower-casing commutes with trimming. -/
theorem toLowerL_trimL (l : List Char) : toLowerL (trimL l) = trimL (toLowerL l) := by
  unfold trimL toLowerL
  rw [List.map_reverse, map_lower_dropWhile, List.map_reverse, map_lower_dropWhile]

/-- C6 counterexample: for the content `x foo ?` and the non-empty query
`foo ` (trailing space), the single returned snippet is the trimmed `x foo`,
whose lower-cased text does not contain the query's lower-cased text — the
filter tests the unit before trimming, and trimming removes the matched
trailing space. -/
theorem extractRelevantSnippets_whitespace_query_counterexample :
    ("foo " : String) ≠ "" ∧
    extractRelevantSnippets "x foo ?" "foo " = ["x foo"] ∧
    containsSub (toLowerStr "x foo") (toLowerStr "foo ") = false := by decide

/-- C6 (amended): snippet extraction splits the content on `.`, `!`, `?`,
returns at most 3 units in original order, and each returned snippet is the
whitespace-trim of a unit whose lower-cased text contains the query's
lower-cased text; when additionally the query carries no leading or trailing
whitespace (it equals its own trim), each returned snippet's lower-cased
text still contains the query's lower-cased text. -/
theorem extractRelevantSnippets_spec (content q : String) (hq : q ≠ "")
    (hfix : trimStr q = q) :
    (extractRelevantSnippets content q).length ≤ 3 ∧
    (extractRelevantSnippets content q).Sublist
      ((splitSentences content.data).map (fun u => String.mk (trimL u))) ∧
    (∀ s ∈ extractRelevantSnippets content q,
      ∃ u ∈ splitSentences content.data,
        isSubstrOfL (toLowerL q.data) (toLowerL u) = true ∧ s = String.mk (trimL u)) ∧
    (∀ s ∈ extractRelevantSnippets content q,
      containsSub (toLowerStr s) (toLowerStr q) = true) := by
  have hqdata : q.data ≠ [] := by
    intro h0
    apply hq
    have hmk : q = String.mk q.data := rfl
    rw [hmk, h0]
  have hqL : toLowerL q.data ≠ [] := by
    intro h0
    exact hqdata (List.map_eq_nil_iff.mp h0)
  have hfixL : trimL (toLowerL q.data) = toLowerL q.data := by
    have h1 : trimL q.data = q.data := congrArg String.data hfix
    calc trimL (toLowerL q.data) = toLowerL (trimL q.data) := (toLowerL_trimL _).symm
      _ = toLowerL q.data := by rw [h1]
  refine ⟨?_, ?_, ?_, ?_⟩
  · unfold extractRelevantSnippets
    dsimp only
    rw [List.length_map]
    exact List.length_take_le _ _
  · unfold extractRelevantSnippets
    dsimp only
    exact ((List.take_sublist _ _).trans (List.filter_sublist _)).map _
  · intro s hs
    unfold extractRelevantSnippets at hs
    dsimp only at hs
    rcases List.mem_map.mp hs with ⟨u, hu, rfl⟩
    have hu1 : u ∈ (splitSentences content.data).filter
        (fun s => isSubstrOfL (toLowerL q.data) (toLowerL s)) := List.mem_of_mem_take hu
    rcases List.mem_filter.mp hu1 with ⟨hu2, hu3⟩
    exact ⟨u, hu2, hu3, rfl⟩
  · intro s hs
    unfold extractRelevantSnippets at hs
    dsimp only at hs
    rcases List.mem_map.mp hs with ⟨u, hu, rfl⟩
    have hu1 : u ∈ (splitSentences content.data).filter
        (fun s => isSubstrOfL (toLowerL q.data) (toLowerL s)) := List.mem_of_mem_take hu
    rcases List.mem_filter.mp hu1 with ⟨_, hu3⟩
    show isSubstrOfL (toLowerStr q).data (toLowerStr (String.mk (trimL u))).data = true
    have e1 : (toLowerStr q).data = toLowerL q.data := rfl
    have e2 : (toLowerStr (String.mk (trimL u))).data = toLowerL (trimL u) := rfl
    rw [e1, e2, toLowerL_trimL]
    exact substr_trimL _ _ hqL hfixL hu3

/-- Witness for C6 on the spec's scenario: the whitespace-free query `slo`
against the `SLO Guide` body. -/
theorem extractRelevantSnippets_spec_witness :
    ("slo" : String) ≠ "" ∧ trimStr "slo" = "slo" ∧
    ∀ s ∈ extractRelevantSnippets
        "Our service level objective is 99.9% availability." "slo",
      containsSub (toLowerStr s) (toLowerStr "slo") = true :=
  ⟨by decide, by decide,
   (extractRelevantSnippets_spec
     "Our service level objective is 99.9% availability." "slo"
     (by decide) (by decide)).2.2.2⟩

end DevSecOpsChat
